import Mathlib

set_option autoImplicit false

/-
Shallow embedding of the organic-compounds web application
(src/molecular_simulator.py, src/app.py, src/molecular_visualizer.py).

The external cheminformatics toolkit (RDKit) is modelled as an abstract
structure of functions: parsing returns an `Option` (the toolkit returns a
structure or `None`), and every toolkit call that the Python code guards with
a `try`/`except` is modelled as an `Except Unit` computation, so that raised
exceptions are explicit values.  Python floats are modelled as rationals,
Python dicts (which preserve insertion order) as association lists.
-/

namespace MolSim

/-- Values stored in a molecular property record: Python ints, floats
(modelled as rationals) and strings, as produced by `calculate_properties`. -/
inductive PValue where
  | pint (n : Int)
  | pfloat (q : Rat)
  | pstr (s : String)
deriving DecidableEq

/-- A property record: a Python dict from descriptor names to values,
modelled as an insertion-ordered association list. -/
abbrev PropRecord := List (String × PValue)

/-- Abstract interface of the external cheminformatics toolkit, over an
abstract type `Mol` of molecule handles.  Fields correspond one-to-one to the
toolkit entry points used by `molecular_simulator.py`.  `molFromSmiles`
returns `none` exactly when the toolkit returns no structure; calls that may
raise are `Except Unit` valued. -/
structure Toolkit (Mol : Type) where
  molFromSmiles : String → Option Mol
  addHs : Mol → Mol
  embedMolecule : Mol → Int → Except Unit Mol
  uffOptimizeMolecule : Mol → Int → Except Unit (Int × Mol)
  molToMolBlock : Mol → String
  molWt : Mol → Except Unit Rat
  exactMolWt : Mol → Except Unit Rat
  calcMolFormula : Mol → Except Unit String
  molLogP : Mol → Except Unit Rat
  numHDonors : Mol → Except Unit Int
  numHAcceptors : Mol → Except Unit Int
  calcTPSA : Mol → Except Unit Rat
  calcNumRotatableBonds : Mol → Except Unit Int
  getNumHeavyAtoms : Mol → Except Unit Int
  calcNumRings : Mol → Except Unit Int
  calcNumAromaticRings : Mol → Except Unit Int

/-- State of a `MolecularSimulator` instance: `self.molecule`,
`self.mol_block` and `self.properties` as initialized by `__init__`
(lines 20-23 of molecular_simulator.py). -/
structure SimState (Mol : Type) where
  molecule : Option Mol
  mol_block : Option String
  properties : PropRecord
deriving DecidableEq

/-- Embedding of `MolecularSimulator.create_molecule_from_smiles`
(molecular_simulator.py lines 25-50): parse the SMILES string; on `None`
return `False` leaving the state untouched; otherwise add explicit hydrogens
and store the handle. -/
def create_molecule_from_smiles {Mol : Type} (tk : Toolkit Mol)
    (st : SimState Mol) (smiles : String) : Bool × SimState Mol :=
  match tk.molFromSmiles smiles with
  | none => (false, st)
  | some mol => (true, { st with molecule := some (tk.addHs mol) })

/-- Embedding of `MolecularSimulator.optimize_3d_structure`
(molecular_simulator.py lines 52-84): with no molecule return `False`;
otherwise embed 3D coordinates with the fixed random seed 42, run the UFF
minimization for up to `max_iters` steps (its integer convergence code is
only logged, never acted on), serialize the MOL block and return `True`.
Any exception from the embedding or the optimization makes the call return
`False`. -/
def optimize_3d_structure {Mol : Type} (tk : Toolkit Mol)
    (st : SimState Mol) (max_iters : Int) : Bool × SimState Mol :=
  match st.molecule with
  | none => (false, st)
  | some m =>
    match tk.embedMolecule m 42 with
    | .error _ => (false, st)
    | .ok m1 =>
      match tk.uffOptimizeMolecule m1 max_iters with
      | .error _ => (false, { st with molecule := some m1 })
      | .ok (_, m2) =>
        (true, { st with molecule := some m2,
                         mol_block := some (tk.molToMolBlock m2) })

/-- Python `self.properties.get(key, 0)` followed by a numeric comparison:
a missing key yields the default 0, a stored number yields its value, and a
stored string would raise a `TypeError` when compared, modelled as an
exception. -/
def getNumDefault0 (props : PropRecord) (key : String) : Except Unit Rat :=
  match props.lookup key with
  | none => .ok 0
  | some (.pint n) => .ok (n : Rat)
  | some (.pfloat q) => .ok q
  | some (.pstr _) => .error ()

/-- Embedding of `MolecularSimulator._count_lipinski_violations`
(molecular_simulator.py lines 127-140).  Note that the Python method reads
`self.properties`, i.e. the record argument here is whatever record is
currently stored on the simulator when the method runs. -/
def count_lipinski_violations (props : PropRecord) : Except Unit Int := do
  let mw ← getNumDefault0 props "molecular_weight"
  let v1 : Int := if mw > 500 then 1 else 0
  let lp ← getNumDefault0 props "logp"
  let v2 : Int := if lp > 5 then 1 else 0
  let hbd ← getNumDefault0 props "hbd"
  let v3 : Int := if hbd > 5 then 1 else 0
  let hba ← getNumDefault0 props "hba"
  let v4 : Int := if hba > 10 then 1 else 0
  pure (v1 + v2 + v3 + v4)

/-- The eleven toolkit descriptor values read inside the dict literal of
`calculate_properties` (molecular_simulator.py lines 97-117). -/
structure DescValues where
  mw : Rat
  em : Rat
  formula : String
  logp : Rat
  hbd : Int
  hba : Int
  tpsa : Rat
  rot : Int
  heavy : Int
  rings : Int
  arings : Int
deriving DecidableEq

/-- Sequential evaluation of the eleven toolkit descriptor calls, in the
order they appear in the dict literal of `calculate_properties`; the first
raised exception aborts the whole computation. -/
def calcDescriptors {Mol : Type} (tk : Toolkit Mol) (m : Mol) :
    Except Unit DescValues := do
  let mw ← tk.molWt m
  let em ← tk.exactMolWt m
  let formula ← tk.calcMolFormula m
  let logp ← tk.molLogP m
  let hbd ← tk.numHDonors m
  let hba ← tk.numHAcceptors m
  let tpsa ← tk.calcTPSA m
  let rot ← tk.calcNumRotatableBonds m
  let heavy ← tk.getNumHeavyAtoms m
  let rings ← tk.calcNumRings m
  let arings ← tk.calcNumAromaticRings m
  pure { mw := mw, em := em, formula := formula, logp := logp, hbd := hbd,
         hba := hba, tpsa := tpsa, rot := rot, heavy := heavy,
         rings := rings, arings := arings }

/-- The dict literal of `calculate_properties` (molecular_simulator.py lines
97-117): the eleven descriptor calls are evaluated first, then
`self._count_lipinski_violations()` is evaluated as the last value of the
literal, reading `prev` — the record stored on the simulator *before* the
assignment `self.properties = properties` runs. -/
def buildProps {Mol : Type} (tk : Toolkit Mol) (m : Mol) (prev : PropRecord) :
    Except Unit PropRecord := do
  let d ← calcDescriptors tk m
  let viol ← count_lipinski_violations prev
  pure [("molecular_weight", .pfloat d.mw),
        ("exact_mass", .pfloat d.em),
        ("formula", .pstr d.formula),
        ("logp", .pfloat d.logp),
        ("hbd", .pint d.hbd),
        ("hba", .pint d.hba),
        ("tpsa", .pfloat d.tpsa),
        ("rotatable_bonds", .pint d.rot),
        ("heavy_atoms", .pint d.heavy),
        ("rings", .pint d.rings),
        ("aromatic_rings", .pint d.arings),
        ("lipinski_violations", .pint viol)]

/-- Embedding of `MolecularSimulator.calculate_properties`
(molecular_simulator.py lines 86-125): with no molecule return the empty
record; otherwise evaluate the dict literal — on success store it in
`self.properties` and return it, on any exception return the empty record
leaving the stored state untouched. -/
def calculate_properties {Mol : Type} (tk : Toolkit Mol)
    (st : SimState Mol) : PropRecord × SimState Mol :=
  match st.molecule with
  | none => ([], st)
  | some m =>
    match buildProps tk m st.properties with
    | .error _ => ([], st)
    | .ok props => (props, { st with properties := props })

/-- The fixed descriptor schema: the keys of the record built by
`calculate_properties`, in insertion order. -/
def descriptorSchema : List String :=
  ["molecular_weight", "exact_mass", "formula", "logp", "hbd", "hba",
   "tpsa", "rotatable_bonds", "heavy_atoms", "rings", "aromatic_rings",
   "lipinski_violations"]

/-- Embedding of `MolecularSimulator._get_unit` (molecular_simulator.py
lines 173-188): the fixed descriptor-to-unit lookup with default empty
string.  The unit string for `tpsa` is the single character U+0172 exactly
as it appears in the source file. -/
def get_unit (property_name : String) : String :=
  let units : List (String × String) :=
    [("molecular_weight", "g/mol"),
     ("exact_mass", "g/mol"),
     ("tpsa", "Ų"),
     ("logp", ""),
     ("hbd", "count"),
     ("hba", "count"),
     ("rotatable_bonds", "count"),
     ("heavy_atoms", "count"),
     ("rings", "count"),
     ("aromatic_rings", "count"),
     ("lipinski_violations", "count")]
  (units.lookup property_name).getD ""

/-- Decimal digit character for `n % 10`. -/
def digitChar (n : Nat) : Char := Char.ofNat (48 + n % 10)

/-- The three fractional digits produced by the Python format `f"{v:.3f}"`
for a scaled fractional part `n < 1000`. -/
def frac3 (n : Nat) : String :=
  String.mk [digitChar (n / 100), digitChar (n / 10), digitChar n]

/-- The value scaled by 1000 and rounded to the nearest integer, i.e.
the floor of `1000 * q + 1 / 2`, computed directly on the numerator and
denominator so that it evaluates by kernel reduction. -/
def scaled1000 (q : Rat) : Int :=
  Int.fdiv (2000 * q.num + (q.den : Int)) (2 * (q.den : Int))

/-- Embedding of the Python fixed-point format `f"{value:.3f}"`: sign,
integer digits, a decimal point, then exactly three fractional digits of the
value rounded at the third decimal. -/
def formatFixed3 (q : Rat) : String :=
  let sign := if q < 0 then "-" else ""
  let aq := if q < 0 then -q else q
  let scaled : Int := scaled1000 aq
  sign ++ toString (scaled / 1000) ++ "." ++ frac3 (scaled % 1000).toNat

/-- Characters of Python `str.title()`: an alphabetic character is
upper-cased when the previous character is not alphabetic and lower-cased
otherwise; other characters pass through. -/
def titleChars : Bool → List Char → List Char
  | _, [] => []
  | prevAlpha, c :: cs =>
    (if c.isAlpha then (if prevAlpha then c.toLower else c.toUpper) else c)
      :: titleChars c.isAlpha cs

/-- Python `key.replace("_", " ").title()` as used for the `Property` column
(molecular_simulator.py lines 160 and 166). -/
def pyTitleLabel (s : String) : String :=
  String.mk (titleChars false
    (s.data.map (fun c => if c = Char.ofNat 95 then Char.ofNat 32 else c)))

/-- One row of the properties table: the `Property`, `Value` and `Unit`
columns of the DataFrame built by `get_properties_dataframe`. -/
structure TableRow where
  property : String
  value : String
  unit : String
deriving DecidableEq

/-- One iteration of the row-building loop of `get_properties_dataframe`
(molecular_simulator.py lines 156-169): numeric values are formatted with
three decimals when they are floats and with `str` when they are ints, and
get their unit from the lookup; any other value is stringified and gets the
empty unit. -/
def formatRow (key : String) (v : PValue) : TableRow :=
  match v with
  | .pint n =>
    { property := pyTitleLabel key, value := toString n, unit := get_unit key }
  | .pfloat q =>
    { property := pyTitleLabel key, value := formatFixed3 q, unit := get_unit key }
  | .pstr s =>
    { property := pyTitleLabel key, value := s, unit := "" }

/-- Embedding of `MolecularSimulator.get_properties_dataframe`
(molecular_simulator.py lines 150-171): an empty stored record yields the
empty DataFrame, otherwise one row per stored key in insertion order. -/
def get_properties_dataframe (props : PropRecord) : List TableRow :=
  if props.isEmpty then []
  else props.map (fun kv => formatRow kv.1 kv.2)

/-- Style dispatch of `render_molecule_3d` (app.py lines 85-95): four
recognized styles select a fixed 3Dmol style specification and every other
tag falls into the `else` branch, which is the stick specification. -/
def styleSpec (style : String) : String :=
  if style = "stick" then "\x7b\x27stick\x27: \x7b\x27radius\x27: 0.2\x7d\x7d"
  else if style = "sphere" then "\x7b\x27sphere\x27: \x7b\x27radius\x27: 0.5\x7d\x7d"
  else if style = "ball_and_stick" then
    "\x7b\x27stick\x27: \x7b\x27radius\x27: 0.15\x7d, \x27sphere\x27: \x7b\x27radius\x27: 0.3\x7d\x7d"
  else if style = "line" then "\x7b\x27line\x27: \x7b\x27linewidth\x27: 3\x7d\x7d"
  else "\x7b\x27stick\x27: \x7b\x27radius\x27: 0.2\x7d\x7d"

/-- The JavaScript escaping of the MOL block (app.py line 98) applied to a
single character: backslash, backtick and dollar are prefixed with a
backslash (the three sequential `replace` calls amount to this map). -/
def escapeMolBlockChar (c : Char) : List Char :=
  if c = Char.ofNat 92 then [Char.ofNat 92, Char.ofNat 92]
  else if c = Char.ofNat 96 then [Char.ofNat 92, Char.ofNat 96]
  else if c = Char.ofNat 36 then [Char.ofNat 92, Char.ofNat 36]
  else [c]

/-- The escaped MOL block `mol_block_escaped` of app.py line 98. -/
def escapeMolBlock (s : String) : String :=
  String.mk (s.data.map escapeMolBlockChar).flatten

/-- Text of the responsive HTML template (app.py lines 101-133) up to the
interpolation of the escaped MOL block. -/
def htmlPre : String :=
  "\n        <!DOCTYPE html>\n        <html>\n        <head>\n"
  ++ "            <script src=\"https://3dmol.org/build/3Dmol-min.js\"></script>\n"
  ++ "            <style>\n"
  ++ "                * \x7b margin: 0; padding: 0; box-sizing: border-box; \x7d\n"
  ++ "                html, body \x7b width: 100%; height: 100%; overflow: hidden; \x7d\n"
  ++ "                #mol-viewer \x7b width: 100%; height: 100%; \x7d\n"
  ++ "            </style>\n        </head>\n        <body>\n"
  ++ "            <div id=\"mol-viewer\"></div>\n"
  ++ "            <script>\n"
  ++ "                const molData = \x60"

/-- Text of the responsive HTML template between the MOL block interpolation
and the style-specification interpolation. -/
def htmlMid : String :=
  "\x60;\n"
  ++ "                const container = document.getElementById(\x27mol-viewer\x27);\n"
  ++ "                const viewer = $3Dmol.createViewer(container, \x7b\n"
  ++ "                    backgroundColor: \x27white\x27\n"
  ++ "                \x7d);\n"
  ++ "                viewer.addModel(molData, \x27mol\x27);\n"
  ++ "                viewer.setStyle("

/-- Text of the responsive HTML template after the style-specification
interpolation. -/
def htmlSuf : String :=
  ");\n"
  ++ "                viewer.zoomTo();\n"
  ++ "                viewer.render();\n\n"
  ++ "                // ウィンドウリサイズ時に再レンダリング\n"
  ++ "                window.addEventListener(\x27resize\x27, function() \x7b\n"
  ++ "                    viewer.resize();\n"
  ++ "                    viewer.render();\n"
  ++ "                \x7d);\n"
  ++ "            </script>\n        </body>\n        </html>\n        "

/-- Embedding of `render_molecule_3d` (app.py lines 82-134): the embeddable
HTML content produced for a given MOL block and style tag. -/
def render_molecule_3d (mol_block : String) (style : String) : String :=
  htmlPre ++ escapeMolBlock mol_block ++ htmlMid ++ styleSpec style ++ htmlSuf

/-- Streamlit session state used by app.py: the simulator instance plus the
keys set up by `initialize_session_state` (app.py lines 71-80). -/
structure AppState (Mol : Type) where
  sim : SimState Mol
  current_molecule : Option String
  molecule_generated : Bool
  properties_calculated : Bool
deriving DecidableEq

/-- Embedding of `initialize_session_state` (app.py lines 71-80) on a fresh
session: a fresh simulator, no current molecule, both readiness flags
false. -/
def initialize_session_state {Mol : Type} : AppState Mol :=
  { sim := { molecule := none, mol_block := none, properties := [] },
    current_molecule := none,
    molecule_generated := false,
    properties_calculated := false }

/-- Embedding of the generate-button handler inside `main` (app.py lines
212-228): run `create_molecule_from_smiles`, then on success
`optimize_3d_structure`; only when both succeed set `molecule_generated`
and `current_molecule`; on either failure show an error and return, leaving
every session-state key as it was. -/
def generate {Mol : Type} (tk : Toolkit Mol) (app : AppState Mol)
    (smiles : String) (max_iterations : Int) : AppState Mol :=
  let r1 := create_molecule_from_smiles tk app.sim smiles
  if r1.1 then
    let r2 := optimize_3d_structure tk r1.2 max_iterations
    if r2.1 then
      { app with sim := r2.2, molecule_generated := true,
                 current_molecule := some smiles }
    else
      { app with sim := r2.2 }
  else
    { app with sim := r1.2 }

/-- Whether a generate attempt from the given simulator state with the given
SMILES string and iteration budget succeeds end to end (parse succeeds and
then optimization succeeds). -/
def generateOk {Mol : Type} (tk : Toolkit Mol) (sim : SimState Mol)
    (smiles : String) (max_iterations : Int) : Bool :=
  let r1 := create_molecule_from_smiles tk sim smiles
  r1.1 && (optimize_3d_structure tk r1.2 max_iterations).1

/-- A concrete toolkit over `Nat` handles used to evaluate the embedded code
on closed inputs: parsing recognizes only the string "CCO", the optimizer
reports the non-convergence code 1, and the descriptor values are chosen so
that all four drug-likeness thresholds are strictly exceeded
(weight 600 > 500, logP 6 > 5, donors 6 > 5, acceptors 11 > 10). -/
def tkA : Toolkit Nat where
  molFromSmiles s := if s = "CCO" then some 1 else none
  addHs m := m + 10
  embedMolecule m _ := .ok (m + 1)
  uffOptimizeMolecule m _ := .ok (1, m + 2)
  molToMolBlock m := toString m
  molWt _ := .ok 600
  exactMolWt _ := .ok 600
  calcMolFormula _ := .ok "C2H6O"
  molLogP _ := .ok 6
  numHDonors _ := .ok 6
  numHAcceptors _ := .ok 11
  calcTPSA _ := .ok 100
  calcNumRotatableBonds _ := .ok 2
  getNumHeavyAtoms _ := .ok 3
  calcNumRings _ := .ok 0
  calcNumAromaticRings _ := .ok 0

/-- A toolkit whose molecular-weight descriptor raises, to exercise the
exception path of `calculate_properties` on a closed input. -/
def tkFail : Toolkit Nat :=
  { tkA with molWt := fun _ => .error () }

/-- Shared shape lemma: whenever the dict literal of `calculate_properties`
evaluates without an exception, the resulting record carries exactly the
fixed descriptor schema's keys, in order. -/
theorem buildProps_ok_keys {Mol : Type} (tk : Toolkit Mol) (m : Mol)
    (prev : PropRecord) (props : PropRecord)
    (h : buildProps tk m prev = .ok props) :
    props.map Prod.fst = descriptorSchema := by
  unfold buildProps at h
  cases hd : calcDescriptors tk m with
  | error e =>
    rw [hd] at h
    simp [Bind.bind, Except.bind] at h
  | ok d =>
    rw [hd] at h
    cases hv : count_lipinski_violations prev with
    | error e =>
      rw [hv] at h
      simp [Bind.bind, Except.bind] at h
    | ok viol =>
      rw [hv] at h
      simp [Bind.bind, Except.bind, pure, Except.pure] at h
      subst h
      simp [descriptorSchema]

/-- C1 (code bug): the rule-violation count stored by `calculate_properties`
is NOT computed from the descriptors of the same call.  On a fresh session
whose molecule exceeds all four thresholds (weight 600 > 500, logP 6 > 5,
donors 6 > 5, acceptors 11 > 10), the first calculation returns
`lipinski_violations = 0`, because `_count_lipinski_violations` reads
`self.properties`, which is assigned only after the dict literal has been
fully evaluated; a second calculation on the stored record then returns 4.
The claim (and the code's own stated intent, counting the current
molecule's violations) says the first call should already return 4. -/
theorem C1_rule_violation_stale_record :
    let st0 : SimState Nat := ⟨some 11, none, []⟩
    let r1 := calculate_properties tkA st0
    r1.1.lookup "molecular_weight" = some (.pfloat 600) ∧
    r1.1.lookup "logp" = some (.pfloat 6) ∧
    r1.1.lookup "hbd" = some (.pint 6) ∧
    r1.1.lookup "hba" = some (.pint 11) ∧
    ((600 : Rat) > 500 ∧ (6 : Rat) > 5 ∧ (6 : Int) > 5 ∧ (11 : Int) > 10) ∧
    r1.1.lookup "lipinski_violations" = some (.pint 0) ∧
    (calculate_properties tkA r1.2).1.lookup "lipinski_violations"
      = some (.pint 4) := by
  decide

/-- The app state after one successful generation on a fresh session
(parse of "CCO" succeeds, optimization succeeds). -/
def app1 : AppState Nat := generate tkA initialize_session_state "CCO" 200

/-- C2 (counterexample): re-triggering generation with an invalid string on
a session whose structure is ready does not reset the readiness flag — the
parse fails, yet `molecule_generated` stays `true`, so the state is not
`Idle` after the failed parse and the flags were not reset to unready. -/
theorem C2_counterexample :
    app1.molecule_generated = true ∧
    tkA.molFromSmiles "XX" = none ∧
    (generate tkA app1 "XX" 200).molecule_generated = true := by
  decide

/-- C2 (amended): the generate handler never resets the readiness flag —
after any generate attempt `molecule_generated` equals its prior value OR-ed
with the end-to-end success of parse-then-optimize, so it becomes true only
when both parse and optimization succeed; and when the parse fails the whole
session state is unchanged, so a fresh (Idle) session remains Idle while a
previously ready structure remains marked ready. -/
theorem C2_flags_monotone {Mol : Type} (tk : Toolkit Mol) (app : AppState Mol)
    (smiles : String) (it : Int) :
    ((generate tk app smiles it).molecule_generated
      = (app.molecule_generated || generateOk tk app.sim smiles it))
    ∧ (tk.molFromSmiles smiles = none → generate tk app smiles it = app) := by
  constructor
  · cases hp : tk.molFromSmiles smiles with
    | none => simp [generate, generateOk, create_molecule_from_smiles, hp]
    | some m =>
      cases ho : optimize_3d_structure tk
          { app.sim with molecule := some (tk.addHs m) } it with
      | mk b st2 =>
        cases b <;>
          simp [generate, generateOk, create_molecule_from_smiles, hp, ho]
  · intro hp
    simp [generate, create_molecule_from_smiles, hp]

/-- Witness for the amended C2 theorem at a concrete session: a failed
re-parse leaves the previously generated session state exactly as it was. -/
theorem C2_flags_monotone_witness : generate tkA app1 "XX" 200 = app1 :=
  (C2_flags_monotone tkA app1 "XX" 200).2 (by decide)

/-- C3: for every molecule handle and iteration budget, `optimize` fails
exactly when the embedding or the optimization step raises; whenever both
steps return (with any convergence code `res`, in particular a non-zero one
meaning the iteration budget was exhausted without converging), the call
returns success and stores the serialized structure block. -/
theorem C3_nonconvergence_is_success {Mol : Type} (tk : Toolkit Mol)
    (st : SimState Mol) (m : Mol) (it : Int) (hm : st.molecule = some m) :
    ((optimize_3d_structure tk st it).1 = false ↔
      tk.embedMolecule m 42 = .error () ∨
        ∃ m1, tk.embedMolecule m 42 = .ok m1 ∧
          tk.uffOptimizeMolecule m1 it = .error ())
    ∧ (∀ m1 res m2, tk.embedMolecule m 42 = .ok m1 →
        tk.uffOptimizeMolecule m1 it = .ok (res, m2) →
        optimize_3d_structure tk st it =
          (true, { st with molecule := some m2,
                           mol_block := some (tk.molToMolBlock m2) })) := by
  constructor
  · cases he : tk.embedMolecule m 42 with
    | error e =>
      cases e
      simp [optimize_3d_structure, hm, he]
    | ok m1 =>
      cases ho : tk.uffOptimizeMolecule m1 it with
      | error e =>
        cases e
        constructor
        · intro _
          exact Or.inr ⟨m1, rfl, ho⟩
        · intro _
          simp [optimize_3d_structure, hm, he, ho]
      | ok p =>
        cases p with
        | mk res m2 => simp [optimize_3d_structure, hm, he, ho]
  · intro m1 res m2 he ho
    simp [optimize_3d_structure, hm, he, ho]

/-- Witness for C3 at a concrete input: with `tkA` the optimizer reports the
non-convergence code 1, yet the call returns success and stores the MOL
block of the optimized handle. -/
theorem C3_witness :
    optimize_3d_structure tkA ⟨some 5, none, []⟩ 200
      = (true, ⟨some 8, some "8", []⟩) :=
  (C3_nonconvergence_is_success tkA ⟨some 5, none, []⟩ 5 200 rfl).2 6 1 8 rfl rfl

/-- C4: with a molecule present, the record returned by
`calculate_properties` is all-or-nothing: it is empty exactly when the dict
literal raised, and a non-empty result carries exactly the keys of the fixed
descriptor schema, in order. -/
theorem C4_all_or_nothing {Mol : Type} (tk : Toolkit Mol) (st : SimState Mol)
    (m : Mol) (hm : st.molecule = some m) :
    ((calculate_properties tk st).1 = [] ↔
      buildProps tk m st.properties = .error ())
    ∧ ((calculate_properties tk st).1 ≠ [] →
        ((calculate_properties tk st).1).map Prod.fst = descriptorSchema) := by
  cases hb : buildProps tk m st.properties with
  | error e =>
    cases e
    simp [calculate_properties, hm, hb]
  | ok props =>
    have hk := buildProps_ok_keys tk m st.properties props hb
    have hne : props ≠ [] := by
      intro h0
      rw [h0] at hk
      simp [descriptorSchema] at hk
    constructor
    · simp [calculate_properties, hm, hb, hne]
    · intro _
      simpa [calculate_properties, hm, hb] using hk

/-- Witness for C4 at a concrete input: a successful calculation with `tkA`
produces a record whose keys are exactly the fixed descriptor schema. -/
theorem C4_witness :
    ((calculate_properties tkA ⟨some 1, none, []⟩).1).map Prod.fst
      = descriptorSchema :=
  (C4_all_or_nothing tkA ⟨some 1, none, []⟩ 1 rfl).2 (by decide)

/-- C5: for every MOL block, rendering with a style tag outside the closed
enumeration of the six recognized tags produces exactly the same HTML output
as rendering with the stick style, because the style dispatch falls through
to the stick specification. -/
theorem C5_unknown_style_is_stick (mol_block style : String)
    (h1 : style ≠ "stick") (h2 : style ≠ "sphere")
    (h3 : style ≠ "ball_and_stick") (h4 : style ≠ "line")
    (_h5 : style ≠ "surface") (_h6 : style ≠ "cartoon") :
    render_molecule_3d mol_block style = render_molecule_3d mol_block "stick" := by
  have hs : styleSpec style = styleSpec "stick" := by
    simp [styleSpec, h1, h2, h3, h4]
  unfold render_molecule_3d
  rw [hs]

/-- Witness for C5 at a concrete input: the unrecognized tag "ribbon"
renders identically to "stick". -/
theorem C5_witness :
    render_molecule_3d "MOLBLOCK" "ribbon"
      = render_molecule_3d "MOLBLOCK" "stick" :=
  C5_unknown_style_is_stick "MOLBLOCK" "ribbon" (by decide) (by decide)
    (by decide) (by decide) (by decide) (by decide)

/-- C6: `create_molecule_from_smiles` fails exactly when the toolkit returns
no structure for the input string, and on every successful parse the stored
handle has had explicit hydrogens added (`AddHs`) before it is stored. -/
theorem C6_parse_contract {Mol : Type} (tk : Toolkit Mol) (st : SimState Mol)
    (smiles : String) :
    (tk.molFromSmiles smiles = none →
      create_molecule_from_smiles tk st smiles = (false, st))
    ∧ (∀ m, tk.molFromSmiles smiles = some m →
        create_molecule_from_smiles tk st smiles =
          (true, { st with molecule := some (tk.addHs m) }))
    ∧ ((create_molecule_from_smiles tk st smiles).1 = false ↔
        tk.molFromSmiles smiles = none) := by
  refine ⟨?_, ?_, ?_⟩
  · intro hp
    simp [create_molecule_from_smiles, hp]
  · intro m hp
    simp [create_molecule_from_smiles, hp]
  · cases hp : tk.molFromSmiles smiles <;>
      simp [create_molecule_from_smiles, hp]

/-- Witness for C6 at concrete inputs: parsing "CCO" succeeds and stores the
hydrogen-completed handle; parsing the empty string fails and leaves the
state untouched. -/
theorem C6_witness :
    create_molecule_from_smiles tkA ⟨none, none, []⟩ "CCO"
        = (true, ⟨some 11, none, []⟩)
    ∧ create_molecule_from_smiles tkA ⟨none, none, []⟩ ""
        = (false, ⟨none, none, []⟩) :=
  ⟨(C6_parse_contract tkA ⟨none, none, []⟩ "CCO").2.1 1 (by decide),
   (C6_parse_contract tkA ⟨none, none, []⟩ "").1 (by decide)⟩

/-- C7: `optimize_3d_structure` is deterministic in the molecule handle and
the iteration budget: the embedding is always seeded with the constant 42
and no other session state influences the result, so two states holding the
same handle yield the same success flag and, on success, byte-identical
stored structure blocks. -/
theorem C7_optimize_deterministic {Mol : Type} (tk : Toolkit Mol)
    (st1 st2 : SimState Mol) (it : Int) (hm : st1.molecule = st2.molecule) :
    ((optimize_3d_structure tk st1 it).1 = (optimize_3d_structure tk st2 it).1)
    ∧ ((optimize_3d_structure tk st1 it).1 = true →
        ((optimize_3d_structure tk st1 it).2).mol_block
          = ((optimize_3d_structure tk st2 it).2).mol_block) := by
  cases h1 : st1.molecule with
  | none =>
    have h2 : st2.molecule = none := hm.symm.trans h1
    simp [optimize_3d_structure, h1, h2]
  | some m =>
    have h2 : st2.molecule = some m := hm.symm.trans h1
    cases he : tk.embedMolecule m 42 with
    | error e => simp [optimize_3d_structure, h1, h2, he]
    | ok m1 =>
      cases ho : tk.uffOptimizeMolecule m1 it with
      | error e => simp [optimize_3d_structure, h1, h2, he, ho]
      | ok p =>
        cases p with
        | mk res m2 => simp [optimize_3d_structure, h1, h2, he, ho]

/-- Witness for C7 at concrete inputs: two sessions holding the same handle
but different prior blocks and records produce the same structure block. -/
theorem C7_witness :
    ((optimize_3d_structure tkA ⟨some 5, none, []⟩ 200).2).mol_block
      = ((optimize_3d_structure tkA
            ⟨some 5, some "old", [("x", PValue.pint 1)]⟩ 200).2).mol_block :=
  (C7_optimize_deterministic tkA ⟨some 5, none, []⟩
    ⟨some 5, some "old", [("x", PValue.pint 1)]⟩ 200 rfl).2 (by decide)

/-- C8 (counterexample): the unit the table attaches to the TPSA row is the
single character U+0172 that appears in the source of `_get_unit`, not the
two-character string "Å²" the claim names, so the claim's unit lookup is
wrong for the tpsa key. -/
theorem C8_counterexample :
    get_properties_dataframe [("tpsa", PValue.pfloat 100)]
      = [{ property := "Tpsa", value := "100.000", unit := "Ų" }]
    ∧ "Ų" ≠ "Å²" := by
  decide

/-- C8 (amended): for every non-empty record, the table has one row per key;
every float value is formatted to exactly three decimal places (a decimal
point followed by a three-character fractional part); integer and string
values are rendered as-is; numeric rows take their unit from the fixed
lookup (weight in g/mol, counts as "count", logP with the empty unit, and
tpsa with the source's single mojibake character U+0172 rather than "Å²");
non-numeric rows get the empty unit. -/
theorem C8_table_format (props : PropRecord) (hne : props ≠ []) :
    ((get_properties_dataframe props).length = props.length)
    ∧ (∀ k v, (k, v) ∈ props → formatRow k v ∈ get_properties_dataframe props)
    ∧ (∀ k (q : Rat), (formatRow k (.pfloat q)).value = formatFixed3 q
        ∧ (∃ pre post, formatFixed3 q = pre ++ "." ++ post ∧ post.length = 3)
        ∧ (formatRow k (.pfloat q)).unit = get_unit k)
    ∧ (∀ k (n : Int), (formatRow k (.pint n)).value = toString n
        ∧ (formatRow k (.pint n)).unit = get_unit k)
    ∧ (∀ k (s : String), (formatRow k (.pstr s)).value = s
        ∧ (formatRow k (.pstr s)).unit = "")
    ∧ get_unit "molecular_weight" = "g/mol" ∧ get_unit "tpsa" = "Ų"
    ∧ get_unit "hbd" = "count" ∧ get_unit "logp" = "" := by
  have hie : props.isEmpty = false := by
    cases props with
    | nil => exact absurd rfl hne
    | cons a l => rfl
  refine ⟨?_, ?_, ?_, ?_, ?_, by decide, by decide, by decide, by decide⟩
  · simp [get_properties_dataframe, hie]
  · intro k v hkv
    simp only [get_properties_dataframe, hie, Bool.false_eq_true, if_false]
    exact List.mem_map_of_mem (fun kv => formatRow kv.1 kv.2) hkv
  · intro k q
    refine ⟨rfl, ?_, rfl⟩
    exact ⟨(if q < 0 then "-" else "")
        ++ toString (scaled1000 (if q < 0 then -q else q) / 1000),
      frac3 ((scaled1000 (if q < 0 then -q else q)) % 1000).toNat,
      rfl, rfl⟩
  · intro k n
    exact ⟨rfl, rfl⟩
  · intro k s
    exact ⟨rfl, rfl⟩

/-- A concrete non-empty property record with a float, an int and a string
entry, used to instantiate the table-format theorem. -/
def propsW : PropRecord :=
  [("molecular_weight", .pfloat (Rat.divInt 1234 10)),
   ("hbd", .pint 2),
   ("formula", .pstr "C2H6O")]

/-- Witness for the amended C8 theorem at a concrete record. -/
theorem C8_witness :
    propsW ≠ [] ∧ (get_properties_dataframe propsW).length = propsW.length :=
  ⟨by decide, (C8_table_format propsW (by decide)).1⟩

/-- C9: on a session holding no molecule handle every operation returns its
failure value and leaves the state alone: `optimize_3d_structure` returns
`false`, `calculate_properties` returns the empty record, and the table of
the resulting empty record is the empty table; all three are total
functions, so none of them raises. -/
theorem C9_no_molecule_safe {Mol : Type} (tk : Toolkit Mol)
    (st : SimState Mol) (it : Int) (hm : st.molecule = none) :
    optimize_3d_structure tk st it = (false, st)
    ∧ calculate_properties tk st = ([], st)
    ∧ get_properties_dataframe (calculate_properties tk st).1 = [] := by
  refine ⟨?_, ?_, ?_⟩ <;>
    simp [optimize_3d_structure, calculate_properties,
      get_properties_dataframe, hm]

/-- Witness for C9 at a concrete molecule-less session. -/
theorem C9_witness :
    optimize_3d_structure tkA ⟨none, some "b", [("hbd", PValue.pint 1)]⟩ 200
      = (false, ⟨none, some "b", [("hbd", PValue.pint 1)]⟩) :=
  (C9_no_molecule_safe tkA ⟨none, some "b", [("hbd", PValue.pint 1)]⟩
    200 rfl).1

/-- C10: whenever `calculate_properties` returns the empty record (an
exception during the dict literal, or no molecule present), the stored
session state — molecule handle, structure block and previously stored
property record — is returned unchanged. -/
theorem C10_failed_calculate_frame {Mol : Type} (tk : Toolkit Mol)
    (st : SimState Mol) (h : (calculate_properties tk st).1 = []) :
    (calculate_properties tk st).2 = st := by
  cases hm : st.molecule with
  | none => simp [calculate_properties, hm]
  | some m =>
    cases hb : buildProps tk m st.properties with
    | error e => simp [calculate_properties, hm, hb]
    | ok props =>
      exfalso
      have hk := buildProps_ok_keys tk m st.properties props hb
      simp only [calculate_properties, hm, hb] at h
      subst h
      simp [descriptorSchema] at hk

/-- A session state holding an earlier successful record and block, used to
exercise the failure frame of `calculate_properties`. -/
def stPrev : SimState Nat :=
  ⟨some 3, some "block", [("molecular_weight", PValue.pfloat 46)]⟩

/-- Witness for C10 at a concrete input: with a toolkit whose weight
descriptor raises, a recalculation fails and the previously stored record,
handle and block keep their prior values. -/
theorem C10_witness : (calculate_properties tkFail stPrev).2 = stPrev :=
  C10_failed_calculate_frame tkFail stPrev (by decide)

end MolSim
